import Mathlib

/-!
Shallow embedding of the EPL data-crawling core (src/EPL/epl_match_result.py
and src/EPL/epl_matchweek_result.py).

The source reads Python dictionaries with unchecked key access; a missing
key raises KeyError (the spec's MissingFieldError), an out-of-range list
index raises IndexError (the spec folds this into MissingFieldError), and
an unparseable kickoff label raises ValueError from datetime.strptime (the
spec's FormatError).  Documents are embedded as structures of Option
fields (None = key absent), and each builder is the source constructor's
sequence of key accesses in program order, in the Except monad.
-/

namespace EPL

/-- Error kinds raised while building a record: `missingField` stands for the
source's KeyError/IndexError on the fixture document (the spec's
MissingFieldError), `formatErr` for the ValueError raised by
datetime.strptime on a bad kickoff label (the spec's FormatError). -/
inductive BuildErr where
  | missingField
  | formatErr
  deriving DecidableEq, Repr

/-- Error raised by MatchStatistic.get_stats when a team id (or its stats
list) is absent from the statistics document: the source's KeyError there,
the spec's MissingTeamStatsError. -/
inductive StatsErr where
  | missingTeamStats
  deriving DecidableEq, Repr

/-- Ground (epl_match_result.py lines 34-47): name and city. -/
structure Ground where
  name : String
  city : String
  deriving DecidableEq, Repr

/-- TeamInfo (lines 50-68): id, name, short_name. -/
structure TeamInfo where
  id : Int
  name : String
  short_name : String
  deriving DecidableEq, Repr

/-- MatchInfo (lines 71-108).  The source attribute `match` is a Lean
keyword, so the owning field below is called `matchInfo`. -/
structure MatchInfo where
  game_week_id : Int
  match_id : Int
  season : String
  round : Int
  league : String
  kickoff : String
  ground_name : Ground
  attendance : Int
  deriving DecidableEq, Repr

/-- Statistic (lines 111-144): the eight integer counters, all defaulting
to 0 in `Statistic.__init__`. -/
@[ext]
structure Statistic where
  ftg : Int
  htg : Int
  sh : Int
  sot : Int
  co : Int
  fo : Int
  yc : Int
  rc : Int
  deriving DecidableEq, Repr

/-- The defaults of `Statistic.__init__` (all zero). -/
def Statistic.init : Statistic := ⟨0, 0, 0, 0, 0, 0, 0, 0⟩

/-- TeamStat (lines 147-154): team info plus a fresh Statistic. -/
structure TeamStat where
  info : TeamInfo
  stats : Statistic
  deriving DecidableEq, Repr

/-- MatchStatistic (lines 157-182): match info and the two teams.  The
source attribute `match` is spelled `matchInfo` here. -/
structure MatchStatistic where
  matchInfo : MatchInfo
  team1 : TeamStat
  team2 : TeamStat
  deriving DecidableEq, Repr

/-! ### Document model

The JSON documents consumed by the constructors, with every key the
source may access as an Option field (none = the key is absent).  The
statistics mapping `data` is an association list from stringified team id
to an object with the key "M". -/

/-- The "team" object inside one element of entity.teams. -/
structure TeamObjDoc where
  id : Option Int
  name : Option String
  shortName : Option String
  deriving DecidableEq, Repr

/-- One element of entity.teams: a nested "team" object and a score. -/
structure TeamSideDoc where
  team : Option TeamObjDoc
  score : Option Int
  deriving DecidableEq, Repr

/-- The "competition" object inside compSeason. -/
structure CompetitionDoc where
  description : Option String
  deriving DecidableEq, Repr

/-- The "compSeason" object inside gameweek. -/
structure CompSeasonDoc where
  label : Option String
  competition : Option CompetitionDoc
  deriving DecidableEq, Repr

/-- The "gameweek" object: id, compSeason and the round number (which the
provider also calls "gameweek"). -/
structure GameweekDoc where
  id : Option Int
  compSeason : Option CompSeasonDoc
  gameweek : Option Int
  deriving DecidableEq, Repr

/-- The "kickoff" object: a label string. -/
structure KickoffDoc where
  label : Option String
  deriving DecidableEq, Repr

/-- The "ground" object: name and city keys. -/
structure GroundDoc where
  name : Option String
  city : Option String
  deriving DecidableEq, Repr

/-- One statistic entry {name, value} of a team's "M" list. -/
structure StatEntry where
  name : String
  value : Int
  deriving DecidableEq, Repr

/-- The per-team object of the statistics mapping, holding the entry list
under the key "M". -/
structure TeamStatsEntry where
  M : Option (List StatEntry)
  deriving DecidableEq, Repr

/-- The "entity" object of the fixture-detail document. -/
structure EntityDoc where
  gameweek : Option GameweekDoc
  id : Option Int
  kickoff : Option KickoffDoc
  ground : Option GroundDoc
  attendance : Option Int
  teams : Option (List TeamSideDoc)
  deriving DecidableEq, Repr

/-- The whole per-match document {"entity": ..., "data": ...} consumed by
both `MatchStatistic.__init__` and `MatchStatistic.get_stats`. -/
structure MatchDoc where
  entity : Option EntityDoc
  data : Option (List (String × TeamStatsEntry))
  deriving DecidableEq, Repr

/-- A Python dict access `d[k]`: the value when the key is present,
KeyError (= missingField) when it is not. -/
def getF {α : Type} (o : Option α) : Except BuildErr α :=
  match o with
  | some a => Except.ok a
  | none => Except.error BuildErr.missingField

/-- A Python list index `l[i]`: IndexError on an out-of-range index, which
the spec folds into MissingFieldError. -/
def getIdx {α : Type} (l : List α) (i : Nat) : Except BuildErr α :=
  match l[i]? with
  | some a => Except.ok a
  | none => Except.error BuildErr.missingField

/-! ### Kickoff label parsing

`MatchInfo.__init__` (lines 104-106) runs
`datetime.strptime(label[:-4], "%a %d %b %Y, %H:%M").strftime("%d/%m/%Y")`.
The model below is that strptime pattern as a character-level parser:
a weekday abbreviation, one or two day digits, a month abbreviation,
exactly four year digits, ", ", one or two hour digits, ":", one or two
minute digits, with the whole string consumed and the values range-checked
as the regex/datetime constructor do (1 ≤ day ≤ days in the month,
year ≥ 1, hour ≤ 23, minute ≤ 59).  Abbreviation matching is modelled
case-sensitively on the standard English names, and the single spaces of
the pattern are matched as single spaces. -/

/-- The weekday abbreviations matched by %a (index unused downstream). -/
def wdayAbbrs : List String := ["Mon", "Tue", "Wed", "Thu", "Fri", "Sat", "Sun"]

/-- The month abbreviations matched by %b; index i stands for month i+1. -/
def monAbbrs : List String :=
  ["Jan", "Feb", "Mar", "Apr", "May", "Jun",
   "Jul", "Aug", "Sep", "Oct", "Nov", "Dec"]

/-- Consume the given literal characters from the front of the input. -/
def eatToken : List Char → List Char → Option (List Char)
  | [], cs => some cs
  | _ :: _, [] => none
  | p :: ps, c :: cs => if p == c then eatToken ps cs else none

/-- Match one of the listed alternatives at the front of the input,
returning the index of the first that matches and the rest of the input. -/
def matchAlt : List String → List Char → Option (Nat × List Char)
  | [], _ => none
  | a :: as, cs =>
    match eatToken a.data cs with
    | some rest => some (0, rest)
    | none => (matchAlt as cs).map (fun pr => (pr.1 + 1, pr.2))

/-- Consume exactly the character c from the front of the input. -/
def expectChar (c : Char) : List Char → Option (List Char)
  | [] => none
  | x :: xs => if x == c then some xs else none

/-- Greedily take up to k leading digit characters. -/
def takeDigits : Nat → List Char → List Char × List Char
  | _, [] => ([], [])
  | 0, cs => ([], cs)
  | k + 1, c :: cs =>
    if c.isDigit then
      let pr := takeDigits k cs
      (c :: pr.1, pr.2)
    else ([], c :: cs)

/-- The numeric value of a digit string, most significant digit first. -/
def digitsVal (ds : List Char) : Nat :=
  ds.foldl (fun a c => a * 10 + (c.toNat - 48)) 0

/-- Parse between one and k digits greedily (the %d/%H/%M fields). -/
def parseNumUpTo (k : Nat) (cs : List Char) : Option (Nat × List Char) :=
  let pr := takeDigits k cs
  if pr.1.isEmpty then none else some (digitsVal pr.1, pr.2)

/-- Parse exactly four digits (the %Y field). -/
def parseYear4 (cs : List Char) : Option (Nat × List Char) :=
  let pr := takeDigits 4 cs
  if pr.1.length = 4 then some (digitsVal pr.1, pr.2) else none

/-- Gregorian leap year, as datetime uses. -/
def isLeap (y : Nat) : Bool := (y % 4 == 0 && y % 100 != 0) || y % 400 == 0

/-- Days in a month of a year, as the datetime constructor validates. -/
def daysInMonth (y m : Nat) : Nat :=
  if m = 2 then (if isLeap y then 29 else 28)
  else if m = 4 ∨ m = 6 ∨ m = 9 ∨ m = 11 then 30
  else 31

/-- The parsed components of a kickoff label. -/
structure KickTime where
  day : Nat
  mon : Nat
  year : Nat
  hour : Nat
  minute : Nat
  deriving DecidableEq, Repr

/-- strptime with the fixed pattern "%a %d %b %Y, %H:%M" over a character
list, including the full-input and range checks. -/
def parseKickoffChars (cs : List Char) : Option KickTime := do
  let (_, r1) ← matchAlt wdayAbbrs cs
  let r2 ← expectChar ' ' r1
  let (d, r3) ← parseNumUpTo 2 r2
  let r4 ← expectChar ' ' r3
  let (mIdx, r5) ← matchAlt monAbbrs r4
  let r6 ← expectChar ' ' r5
  let (y, r7) ← parseYear4 r6
  let r8 ← expectChar ',' r7
  let r9 ← expectChar ' ' r8
  let (h, r10) ← parseNumUpTo 2 r9
  let r11 ← expectChar ':' r10
  let (mnt, r12) ← parseNumUpTo 2 r11
  if r12 = [] ∧ 1 ≤ d ∧ d ≤ daysInMonth y (mIdx + 1) ∧ 1 ≤ y ∧ h ≤ 23 ∧ mnt ≤ 59 then
    some ⟨d, mIdx + 1, y, h, mnt⟩
  else none

/-- A number zero-padded to two digits (strftime %d and %m). -/
def pad2 (n : Nat) : String := if n < 10 then "0" ++ toString n else toString n

/-- strftime("%d/%m/%Y") on the parsed components (the year rendered as its
plain decimal digits, four of them for every year from 1000 on). -/
def fmtDate (t : KickTime) : String :=
  pad2 t.day ++ "/" ++ pad2 t.mon ++ "/" ++ toString t.year

/-- Lines 104-106: drop the last four characters of the label (Python
`label[:-4]`), parse with strptime, re-emit as "DD/MM/YYYY". -/
def kickoffOf (label : String) : Option String :=
  (parseKickoffChars (label.data.take (label.data.length - 4))).map fmtDate

/-! ### Builders (the Python constructors, key accesses in program order) -/

/-- Ground.__init__ (lines 45-47). -/
def Ground.build (d : GroundDoc) : Except BuildErr Ground := do
  let n ← getF d.name
  let c ← getF d.city
  return ⟨n, c⟩

/-- TeamInfo.__init__ (lines 65-68): data["team"]["id"], then name, then
shortName. -/
def TeamInfo.build (d : TeamSideDoc) : Except BuildErr TeamInfo := do
  let tm ← getF d.team
  let i ← getF tm.id
  let n ← getF tm.name
  let s ← getF tm.shortName
  return ⟨i, n, s⟩

/-- MatchInfo.__init__ (lines 97-108), accesses in source order; the
kickoff parse failure is the ValueError of strptime, i.e. formatErr;
attendance is read with `.get("attendance", 0)`, defaulting to 0. -/
def MatchInfo.build (d : EntityDoc) : Except BuildErr MatchInfo := do
  let gw ← getF d.gameweek
  let gwid ← getF gw.id
  let mid ← getF d.id
  let cs ← getF gw.compSeason
  let seas ← getF cs.label
  let rnd ← getF gw.gameweek
  let comp ← getF cs.competition
  let lg ← getF comp.description
  let ko ← getF d.kickoff
  let lbl ← getF ko.label
  let kick ← match kickoffOf lbl with
    | some s => Except.ok s
    | none => Except.error BuildErr.formatErr
  let grd ← getF d.ground
  let gr ← Ground.build grd
  return ⟨gwid, mid, seas, rnd, lg, kick, gr, d.attendance.getD 0⟩

/-- TeamStat.__init__ (lines 152-154): team info plus Statistic() with all
fields 0. -/
def TeamStat.build (d : TeamSideDoc) : Except BuildErr TeamStat := do
  let i ← TeamInfo.build d
  return ⟨i, Statistic.init⟩

/-- MatchStatistic.__init__ (lines 175-182): build the match info, the two
team stats from teams[0] and teams[1], then overwrite each team's ftg with
its score. -/
def MatchStatistic.build (d : MatchDoc) : Except BuildErr MatchStatistic := do
  let ent ← getF d.entity
  let mi ← MatchInfo.build ent
  let ts ← getF ent.teams
  let t1d ← getIdx ts 0
  let t1 ← TeamStat.build t1d
  let t2d ← getIdx ts 1
  let t2 ← TeamStat.build t2d
  let s1 ← getF t1d.score
  let s2 ← getF t2d.score
  return ⟨mi, ⟨t1.info, { t1.stats with ftg := s1 }⟩,
              ⟨t2.info, { t2.stats with ftg := s2 }⟩⟩

/-! ### Statistic extraction (MatchStatistic.get_stats, lines 184-239) -/

/-- The seven provider codes of the if/elif chain in get_stats. -/
def statCodes : List String :=
  ["first_half_goals", "total_scoring_att", "ontarget_scoring_att",
   "total_corners_intobox", "fk_foul_lost", "total_yel_card", "total_red_card"]

/-- One loop iteration of get_stats: the if/elif chain over stat["name"],
assigning stat["value"] to the matching field, or doing nothing. -/
def applyStat (st : Statistic) (e : StatEntry) : Statistic :=
  if e.name = "first_half_goals" then { st with htg := e.value }
  else if e.name = "total_scoring_att" then { st with sh := e.value }
  else if e.name = "ontarget_scoring_att" then { st with sot := e.value }
  else if e.name = "total_corners_intobox" then { st with co := e.value }
  else if e.name = "fk_foul_lost" then { st with fo := e.value }
  else if e.name = "total_yel_card" then { st with yc := e.value }
  else if e.name = "total_red_card" then { st with rc := e.value }
  else st

/-- One whole for-loop of get_stats over a team's entry list. -/
def applyStats (st : Statistic) (es : List StatEntry) : Statistic :=
  es.foldl applyStat st

/-- The lookup `data["data"][str(id)]["M"]`: none when the "data" key, the
stringified team id, or the "M" key is absent (each a KeyError in the
source, the spec's MissingTeamStatsError). -/
def lookupTeamStats (d : MatchDoc) (id : Int) : Option (List StatEntry) := do
  let mp ← d.data
  let e ← mp.lookup (toString id)
  e.M

/-- The outcome of get_stats: the error, if any, and the state of the
MatchStatistic object afterwards.  The source mutates `self` in place, so
on a failure at the second team the first team's updates persist. -/
structure GetStatsOut where
  err : Option StatsErr
  state : MatchStatistic
  deriving DecidableEq, Repr

/-- MatchStatistic.get_stats (lines 184-239): fetch team1's entry list
(KeyError aborts with nothing changed), fold the if/elif chain over it,
then the same for team2. -/
def MatchStatistic.get_stats (m : MatchStatistic) (d : MatchDoc) : GetStatsOut :=
  match lookupTeamStats d m.team1.info.id with
  | none => ⟨some StatsErr.missingTeamStats, m⟩
  | some es1 =>
    let m1 : MatchStatistic :=
      { m with team1 := ⟨m.team1.info, applyStats m.team1.stats es1⟩ }
    match lookupTeamStats d m1.team2.info.id with
    | none => ⟨some StatsErr.missingTeamStats, m1⟩
    | some es2 =>
      ⟨none, { m1 with team2 := ⟨m1.team2.info, applyStats m1.team2.stats es2⟩ }⟩

/-! ### Flattening (epl_matchweek_result.py, manipulate_stats, lines 70-97) -/

/-- One cell of the output row: a string or a number. -/
inductive Cell where
  | s : String → Cell
  | n : Int → Cell
  deriving DecidableEq, Repr

/-- manipulate_stats: the literal 21-element row of the source, in source
order. -/
def manipulate_stats (d : MatchStatistic) (ref : String) : List Cell :=
  [Cell.s d.matchInfo.season,
   Cell.s d.matchInfo.kickoff,
   Cell.s d.team1.info.short_name,
   Cell.s d.team2.info.short_name,
   Cell.n d.team1.stats.ftg,
   Cell.n d.team2.stats.ftg,
   Cell.n d.team1.stats.htg,
   Cell.n d.team2.stats.htg,
   Cell.s ref,
   Cell.n d.team1.stats.sh,
   Cell.n d.team2.stats.sh,
   Cell.n d.team1.stats.sot,
   Cell.n d.team2.stats.sot,
   Cell.n d.team1.stats.co,
   Cell.n d.team2.stats.co,
   Cell.n d.team1.stats.fo,
   Cell.n d.team2.stats.fo,
   Cell.n d.team1.stats.yc,
   Cell.n d.team2.stats.yc,
   Cell.n d.team1.stats.rc,
   Cell.n d.team2.stats.rc]

/-! ### Specification-side definitions used by the theorem statements -/

/-- The value of the last entry named `code` in the sequence, if any
(later entries shadow earlier ones, as repeated assignment does). -/
def lastOcc (code : String) : List StatEntry → Option Int
  | [] => none
  | e :: es =>
    match lastOcc code es with
    | some v => some v
    | none => if e.name = code then some e.value else none

/-- A string of one to k decimal digit characters. -/
def digitStr (s : String) (k : Nat) : Prop :=
  1 ≤ s.data.length ∧ s.data.length ≤ k ∧ ∀ c ∈ s.data, c.isDigit = true

/-- All keys `Ground.__init__` reads are present. -/
def groundKeysOk (g : GroundDoc) : Bool := g.name.isSome && g.city.isSome

/-- All keys `TeamInfo.__init__` reads are present in one team entry. -/
def sideOk (td : TeamSideDoc) : Bool :=
  match td.team with
  | none => false
  | some tm => tm.id.isSome && tm.name.isSome && tm.shortName.isSome

/-- All keys `MatchInfo.__init__` reads before the kickoff parse are
present. -/
def preKickOk (ent : EntityDoc) : Bool :=
  match ent.gameweek with
  | none => false
  | some gw =>
    gw.id.isSome && ent.id.isSome &&
    (match gw.compSeason with
     | none => false
     | some cs =>
       cs.label.isSome && gw.gameweek.isSome &&
       (match cs.competition with
        | none => false
        | some comp => comp.description.isSome))

/-- The kickoff label, when both the "kickoff" key and its "label" key are
present. -/
def kickLabel (ent : EntityDoc) : Option String :=
  match ent.kickoff with
  | none => none
  | some ko => ko.label

/-- The kickoff label is present and parses. -/
def kickOk (ent : EntityDoc) : Bool :=
  match kickLabel ent with
  | none => false
  | some lbl => (kickoffOf lbl).isSome

/-- The "ground" key is present with both its sub-keys. -/
def groundOk (ent : EntityDoc) : Bool :=
  match ent.ground with
  | none => false
  | some g => groundKeysOk g

/-- Everything `MatchStatistic.__init__` reads from the entity is present
and well-formed: all of MatchInfo's keys, a parseable kickoff label, and a
team list with at least two entries, each with identity keys and a score. -/
def entityOk (ent : EntityDoc) : Bool :=
  preKickOk ent && kickOk ent && groundOk ent &&
  (match ent.teams with
   | none => false
   | some ts =>
     match ts[0]?, ts[1]? with
     | some t1d, some t2d =>
       sideOk t1d && sideOk t2d && t1d.score.isSome && t2d.score.isSome
     | _, _ => false)

/-- The whole document lets the record builder succeed. -/
def buildOk (d : MatchDoc) : Bool :=
  match d.entity with
  | none => false
  | some ent => entityOk ent

/-- The kickoff parse itself is the first failure: every key accessed
before it is present, the label is present, and the label does not parse. -/
def miFmt (ent : EntityDoc) : Bool :=
  preKickOk ent &&
  (match kickLabel ent with
   | none => false
   | some lbl => (kickoffOf lbl).isNone)

/-- The builder fails at the kickoff parse (FormatError). -/
def formatFail (d : MatchDoc) : Bool :=
  match d.entity with
  | none => false
  | some ent => miFmt ent

/-! ### Concrete documents for witnesses and counterexamples -/

/-- A fully populated example entity (teams Arsenal/Chelsea, scores 2:1). -/
def entityEx : EntityDoc :=
  ⟨some ⟨some 77, some ⟨some "2022/23", some ⟨some "Premier League"⟩⟩, some 1⟩,
   some 1001,
   some ⟨some "Sat 14 Aug 2022, 15:00 BST"⟩,
   some ⟨some "Emirates Stadium", some "London"⟩,
   some 60000,
   some [⟨some ⟨some 1, some "Arsenal", some "ARS"⟩, some 2⟩,
         ⟨some ⟨some 2, some "Chelsea", some "CHE"⟩, some 1⟩]⟩

/-- The statistics mapping of the example: team "1" has one shots entry,
team "2" is present with an empty list. -/
def mpEx : List (String × TeamStatsEntry) :=
  [("1", ⟨some [⟨"total_scoring_att", 10⟩]⟩), ("2", ⟨some []⟩)]

/-- The full example document. -/
def docEx : MatchDoc := ⟨some entityEx, some mpEx⟩

/-- The MatchStatistic the builder produces from `docEx`. -/
def mEx : MatchStatistic :=
  ⟨⟨77, 1001, "2022/23", 1, "Premier League", "14/08/2022",
    ⟨"Emirates Stadium", "London"⟩, 60000⟩,
   ⟨⟨1, "Arsenal", "ARS"⟩, ⟨2, 0, 0, 0, 0, 0, 0, 0⟩⟩,
   ⟨⟨2, "Chelsea", "CHE"⟩, ⟨1, 0, 0, 0, 0, 0, 0, 0⟩⟩⟩

/-- The state of `mEx` after get_stats on `docEx` (team1's shots set). -/
def mExAfter : MatchStatistic :=
  ⟨mEx.matchInfo,
   ⟨⟨1, "Arsenal", "ARS"⟩, ⟨2, 0, 10, 0, 0, 0, 0, 0⟩⟩,
   ⟨⟨2, "Chelsea", "CHE"⟩, ⟨1, 0, 0, 0, 0, 0, 0, 0⟩⟩⟩

/-- A document whose team list has three entries. -/
def docThree : MatchDoc :=
  ⟨some { entityEx with
          teams := some [⟨some ⟨some 1, some "Arsenal", some "ARS"⟩, some 2⟩,
                         ⟨some ⟨some 2, some "Chelsea", some "CHE"⟩, some 1⟩,
                         ⟨some ⟨some 3, some "Fulham", some "FUL"⟩, some 0⟩] },
   none⟩

/-- A statistics document holding team "1" only (team "2" absent). -/
def docOnlyTeam1 : MatchDoc :=
  ⟨none, some [("1", ⟨some [⟨"total_yel_card", 3⟩]⟩)]⟩

/-- A statistics document with an empty mapping. -/
def docNoTeams : MatchDoc := ⟨none, some []⟩

/-! ## Theorems -/

@[simp]
theorem getF_some {α : Type} (a : α) : getF (some a) = Except.ok a := rfl

@[simp]
theorem getF_none {α : Type} :
    getF (none : Option α) = Except.error BuildErr.missingField := rfl

@[simp]
theorem ok_bind {α β : Type} (a : α) (f : α → Except BuildErr β) :
    (Except.ok a >>= f) = f a := rfl

@[simp]
theorem error_bind {α β : Type} (e : BuildErr) (f : α → Except BuildErr β) :
    ((Except.error e : Except BuildErr α) >>= f) = Except.error e := rfl

/-! ### The if/elif chain of get_stats, field by field -/

theorem applyStat_ftg (st : Statistic) (e : StatEntry) :
    (applyStat st e).ftg = st.ftg := by
  unfold applyStat; split_ifs <;> rfl

theorem applyStat_htg (st : Statistic) (e : StatEntry) :
    (applyStat st e).htg = if e.name = "first_half_goals" then e.value else st.htg := by
  unfold applyStat; split_ifs <;> simp_all

theorem applyStat_sh (st : Statistic) (e : StatEntry) :
    (applyStat st e).sh = if e.name = "total_scoring_att" then e.value else st.sh := by
  unfold applyStat; split_ifs <;> simp_all

theorem applyStat_sot (st : Statistic) (e : StatEntry) :
    (applyStat st e).sot = if e.name = "ontarget_scoring_att" then e.value else st.sot := by
  unfold applyStat; split_ifs <;> simp_all

theorem applyStat_co (st : Statistic) (e : StatEntry) :
    (applyStat st e).co = if e.name = "total_corners_intobox" then e.value else st.co := by
  unfold applyStat; split_ifs <;> simp_all

theorem applyStat_fo (st : Statistic) (e : StatEntry) :
    (applyStat st e).fo = if e.name = "fk_foul_lost" then e.value else st.fo := by
  unfold applyStat; split_ifs <;> simp_all

theorem applyStat_yc (st : Statistic) (e : StatEntry) :
    (applyStat st e).yc = if e.name = "total_yel_card" then e.value else st.yc := by
  unfold applyStat; split_ifs <;> simp_all

theorem applyStat_rc (st : Statistic) (e : StatEntry) :
    (applyStat st e).rc = if e.name = "total_red_card" then e.value else st.rc := by
  unfold applyStat; split_ifs <;> simp_all

theorem applyStat_unknown (st : Statistic) (e : StatEntry)
    (h : e.name ∉ statCodes) : applyStat st e = st := by
  simp only [statCodes, List.mem_cons, List.not_mem_nil, or_false, not_or] at h
  obtain ⟨h1, h2, h3, h4, h5, h6, h7⟩ := h
  simp [applyStat, h1, h2, h3, h4, h5, h6, h7]

theorem applyStats_cons (st : Statistic) (e : StatEntry) (es : List StatEntry) :
    applyStats st (e :: es) = applyStats (applyStat st e) es := rfl

theorem applyStats_ftg (es : List StatEntry) :
    ∀ st : Statistic, (applyStats st es).ftg = st.ftg := by
  induction es with
  | nil => intro st; rfl
  | cons e es ih => intro st; rw [applyStats_cons, ih, applyStat_ftg]

theorem applyStats_htg (es : List StatEntry) : ∀ st : Statistic,
    (applyStats st es).htg = (lastOcc "first_half_goals" es).getD st.htg := by
  induction es with
  | nil => intro st; rfl
  | cons e es ih =>
    intro st
    rw [applyStats_cons, ih]
    rcases h : lastOcc "first_half_goals" es with _ | v
    · by_cases hc : e.name = "first_half_goals" <;>
        simp [lastOcc, h, applyStat_htg, hc]
    · simp [lastOcc, h]

theorem applyStats_sh (es : List StatEntry) : ∀ st : Statistic,
    (applyStats st es).sh = (lastOcc "total_scoring_att" es).getD st.sh := by
  induction es with
  | nil => intro st; rfl
  | cons e es ih =>
    intro st
    rw [applyStats_cons, ih]
    rcases h : lastOcc "total_scoring_att" es with _ | v
    · by_cases hc : e.name = "total_scoring_att" <;>
        simp [lastOcc, h, applyStat_sh, hc]
    · simp [lastOcc, h]

theorem applyStats_sot (es : List StatEntry) : ∀ st : Statistic,
    (applyStats st es).sot = (lastOcc "ontarget_scoring_att" es).getD st.sot := by
  induction es with
  | nil => intro st; rfl
  | cons e es ih =>
    intro st
    rw [applyStats_cons, ih]
    rcases h : lastOcc "ontarget_scoring_att" es with _ | v
    · by_cases hc : e.name = "ontarget_scoring_att" <;>
        simp [lastOcc, h, applyStat_sot, hc]
    · simp [lastOcc, h]

theorem applyStats_co (es : List StatEntry) : ∀ st : Statistic,
    (applyStats st es).co = (lastOcc "total_corners_intobox" es).getD st.co := by
  induction es with
  | nil => intro st; rfl
  | cons e es ih =>
    intro st
    rw [applyStats_cons, ih]
    rcases h : lastOcc "total_corners_intobox" es with _ | v
    · by_cases hc : e.name = "total_corners_intobox" <;>
        simp [lastOcc, h, applyStat_co, hc]
    · simp [lastOcc, h]

theorem applyStats_fo (es : List StatEntry) : ∀ st : Statistic,
    (applyStats st es).fo = (lastOcc "fk_foul_lost" es).getD st.fo := by
  induction es with
  | nil => intro st; rfl
  | cons e es ih =>
    intro st
    rw [applyStats_cons, ih]
    rcases h : lastOcc "fk_foul_lost" es with _ | v
    · by_cases hc : e.name = "fk_foul_lost" <;>
        simp [lastOcc, h, applyStat_fo, hc]
    · simp [lastOcc, h]

theorem applyStats_yc (es : List StatEntry) : ∀ st : Statistic,
    (applyStats st es).yc = (lastOcc "total_yel_card" es).getD st.yc := by
  induction es with
  | nil => intro st; rfl
  | cons e es ih =>
    intro st
    rw [applyStats_cons, ih]
    rcases h : lastOcc "total_yel_card" es with _ | v
    · by_cases hc : e.name = "total_yel_card" <;>
        simp [lastOcc, h, applyStat_yc, hc]
    · simp [lastOcc, h]

theorem applyStats_rc (es : List StatEntry) : ∀ st : Statistic,
    (applyStats st es).rc = (lastOcc "total_red_card" es).getD st.rc := by
  induction es with
  | nil => intro st; rfl
  | cons e es ih =>
    intro st
    rw [applyStats_cons, ih]
    rcases h : lastOcc "total_red_card" es with _ | v
    · by_cases hc : e.name = "total_red_card" <;>
        simp [lastOcc, h, applyStat_rc, hc]
    · simp [lastOcc, h]

theorem getD_idem (o : Option Int) (a : Int) : o.getD (o.getD a) = o.getD a := by
  cases o <;> rfl

/-- C1: over one team's entry sequence, the extraction chain sets each of
the seven targeted fields to the last occurrence of its code (overwrite,
not accumulate), leaves a targeted field whose code does not occur at its
prior value, and an entry whose name matches no table key changes nothing
and raises no error. -/
theorem claim_C1 (st : Statistic) (es : List StatEntry) :
    ((applyStats st es).htg = (lastOcc "first_half_goals" es).getD st.htg ∧
     (applyStats st es).sh = (lastOcc "total_scoring_att" es).getD st.sh ∧
     (applyStats st es).sot = (lastOcc "ontarget_scoring_att" es).getD st.sot ∧
     (applyStats st es).co = (lastOcc "total_corners_intobox" es).getD st.co ∧
     (applyStats st es).fo = (lastOcc "fk_foul_lost" es).getD st.fo ∧
     (applyStats st es).yc = (lastOcc "total_yel_card" es).getD st.yc ∧
     (applyStats st es).rc = (lastOcc "total_red_card" es).getD st.rc) ∧
    (∀ e : StatEntry, e.name ∉ statCodes → applyStat st e = st) :=
  ⟨⟨applyStats_htg es st, applyStats_sh es st, applyStats_sot es st,
    applyStats_co es st, applyStats_fo es st, applyStats_yc es st,
    applyStats_rc es st⟩,
   fun e he => applyStat_unknown st e he⟩

/-- Witness for C1 at a concrete input: an entry with an unrecognized code
leaves the statistics untouched. -/
theorem claim_C1_w :
    applyStat Statistic.init ⟨"bogus_code", 7⟩ = Statistic.init :=
  (claim_C1 Statistic.init []).2 ⟨"bogus_code", 7⟩ (by decide)

/-- C6: applying the same entry sequence twice yields the same
StatisticSet as applying it once, and the empty sequence changes
nothing. -/
theorem claim_C6 (st : Statistic) (es : List StatEntry) :
    applyStats (applyStats st es) es = applyStats st es ∧ applyStats st [] = st := by
  refine ⟨?_, rfl⟩
  ext
  · rw [applyStats_ftg, applyStats_ftg]
  · rw [applyStats_htg, applyStats_htg, getD_idem]
  · rw [applyStats_sh, applyStats_sh, getD_idem]
  · rw [applyStats_sot, applyStats_sot, getD_idem]
  · rw [applyStats_co, applyStats_co, getD_idem]
  · rw [applyStats_fo, applyStats_fo, getD_idem]
  · rw [applyStats_yc, applyStats_yc, getD_idem]
  · rw [applyStats_rc, applyStats_rc, getD_idem]

/-- C7: the flattening function returns exactly 21 values, in the fixed
order season, kickoff date, short names, full-time goals, half-time goals,
referee, shots, shots on target, corners, fouls, yellow cards, red cards,
with no validation and no failure of its own. -/
theorem claim_C7 (d : MatchStatistic) (ref : String) :
    (manipulate_stats d ref).length = 21 ∧
    manipulate_stats d ref =
      [Cell.s d.matchInfo.season,
       Cell.s d.matchInfo.kickoff,
       Cell.s d.team1.info.short_name,
       Cell.s d.team2.info.short_name,
       Cell.n d.team1.stats.ftg,
       Cell.n d.team2.stats.ftg,
       Cell.n d.team1.stats.htg,
       Cell.n d.team2.stats.htg,
       Cell.s ref,
       Cell.n d.team1.stats.sh,
       Cell.n d.team2.stats.sh,
       Cell.n d.team1.stats.sot,
       Cell.n d.team2.stats.sot,
       Cell.n d.team1.stats.co,
       Cell.n d.team2.stats.co,
       Cell.n d.team1.stats.fo,
       Cell.n d.team2.stats.fo,
       Cell.n d.team1.stats.yc,
       Cell.n d.team2.stats.yc,
       Cell.n d.team1.stats.rc,
       Cell.n d.team2.stats.rc] :=
  ⟨rfl, rfl⟩

/-! ### Unfolding get_stats by cases on the two lookups -/

theorem gs_none1 (m : MatchStatistic) (d : MatchDoc)
    (h : lookupTeamStats d m.team1.info.id = none) :
    m.get_stats d = ⟨some StatsErr.missingTeamStats, m⟩ := by
  unfold MatchStatistic.get_stats
  rw [h]

theorem gs_none2 (m : MatchStatistic) (d : MatchDoc) (es1 : List StatEntry)
    (h1 : lookupTeamStats d m.team1.info.id = some es1)
    (h2 : lookupTeamStats d m.team2.info.id = none) :
    m.get_stats d = ⟨some StatsErr.missingTeamStats,
      { m with team1 := ⟨m.team1.info, applyStats m.team1.stats es1⟩ }⟩ := by
  unfold MatchStatistic.get_stats
  rw [h1]
  simp only []
  rw [show ({ m with team1 := ⟨m.team1.info, applyStats m.team1.stats es1⟩ } :
        MatchStatistic).team2 = m.team2 from rfl]
  rw [h2]

theorem gs_ok (m : MatchStatistic) (d : MatchDoc) (es1 es2 : List StatEntry)
    (h1 : lookupTeamStats d m.team1.info.id = some es1)
    (h2 : lookupTeamStats d m.team2.info.id = some es2) :
    m.get_stats d = ⟨none,
      ⟨m.matchInfo, ⟨m.team1.info, applyStats m.team1.stats es1⟩,
       ⟨m.team2.info, applyStats m.team2.stats es2⟩⟩⟩ := by
  unfold MatchStatistic.get_stats
  rw [h1]
  simp only []
  rw [show ({ m with team1 := ⟨m.team1.info, applyStats m.team1.stats es1⟩ } :
        MatchStatistic).team2 = m.team2 from rfl]
  rw [h2]

/-! ### Inverting a successful build -/

theorem tstat_build_ok (td : TeamSideDoc) (t : TeamStat)
    (h : TeamStat.build td = Except.ok t) :
    ∃ i, TeamInfo.build td = Except.ok i ∧ t = ⟨i, Statistic.init⟩ := by
  unfold TeamStat.build at h
  rcases hi : TeamInfo.build td with e | i <;> rw [hi] at h <;> simp_all

theorem build_ok_elim (d : MatchDoc) (m : MatchStatistic)
    (h : MatchStatistic.build d = Except.ok m) :
    ∃ ent mi ts t1d t2d t1i t2i s1 s2,
      d.entity = some ent ∧ MatchInfo.build ent = Except.ok mi ∧
      ent.teams = some ts ∧ ts[0]? = some t1d ∧
      TeamInfo.build t1d = Except.ok t1i ∧ ts[1]? = some t2d ∧
      TeamInfo.build t2d = Except.ok t2i ∧ t1d.score = some s1 ∧
      t2d.score = some s2 ∧
      m = ⟨mi, ⟨t1i, { Statistic.init with ftg := s1 }⟩,
              ⟨t2i, { Statistic.init with ftg := s2 }⟩⟩ := by
  unfold MatchStatistic.build at h
  rcases hent : d.entity with _ | ent <;> rw [hent] at h <;>
    simp only [getF_some, getF_none, ok_bind, error_bind] at h
  · exact absurd h (by simp)
  rcases hmi : MatchInfo.build ent with e | mi <;> rw [hmi] at h <;>
    simp only [ok_bind, error_bind] at h
  · exact absurd h (by simp)
  rcases hts : ent.teams with _ | ts <;> rw [hts] at h <;>
    simp only [getF_some, getF_none, ok_bind, error_bind] at h
  · exact absurd h (by simp)
  rcases h0 : ts[0]? with _ | t1d <;>
    simp only [getIdx, h0, ok_bind, error_bind] at h
  · exact absurd h (by simp)
  rcases ht1 : TeamStat.build t1d with e | t1 <;> rw [ht1] at h <;>
    simp only [ok_bind, error_bind] at h
  · exact absurd h (by simp)
  rcases h1 : ts[1]? with _ | t2d <;>
    simp only [getIdx, h1, ok_bind, error_bind] at h
  · exact absurd h (by simp)
  rcases ht2 : TeamStat.build t2d with e | t2 <;> rw [ht2] at h <;>
    simp only [ok_bind, error_bind] at h
  · exact absurd h (by simp)
  rcases hs1 : t1d.score with _ | s1 <;> rw [hs1] at h <;>
    simp only [getF_some, getF_none, ok_bind, error_bind] at h
  · exact absurd h (by simp)
  rcases hs2 : t2d.score with _ | s2 <;> rw [hs2] at h <;>
    simp only [getF_some, getF_none, ok_bind, error_bind] at h
  · exact absurd h (by simp)
  obtain ⟨i1, hi1, rfl⟩ := tstat_build_ok t1d t1 ht1
  obtain ⟨i2, hi2, rfl⟩ := tstat_build_ok t2d t2 ht2
  refine ⟨ent, mi, ts, t1d, t2d, i1, i2, s1, s2, rfl, hmi, hts, h0, hi1, h1,
    hi2, hs1, hs2, ?_⟩
  simpa [pure, Except.pure] using h.symm

/-- Evaluation of the builder on the concrete example document. -/
theorem build_docEx : MatchStatistic.build docEx = Except.ok mEx := rfl

/-- Evaluation of get_stats on the concrete example document. -/
theorem gs_docEx : mEx.get_stats docEx = ⟨none, mExAfter⟩ := rfl

/-- C3: the extraction step fails with MissingTeamStatsError when either
team's stringified id is absent from the mapping, while an id that is
present and maps to an empty entry list is no error on its own and leaves
that team's fields at their prior values, team by team: a team1 mapped
to an empty list keeps team1's fields and still lets team2 be processed,
and a team1 list of any content with team2 mapped to an empty list
succeeds with team2's fields untouched. -/
theorem claim_C3 (m : MatchStatistic) (d : MatchDoc)
    (mp : List (String × TeamStatsEntry)) (hd : d.data = some mp) :
    ((mp.lookup (toString m.team1.info.id) = none ∨
      mp.lookup (toString m.team2.info.id) = none) →
      (m.get_stats d).err = some StatsErr.missingTeamStats) ∧
    (∀ e1 : TeamStatsEntry,
      mp.lookup (toString m.team1.info.id) = some e1 → e1.M = some [] →
      (m.get_stats d).state.team1.stats = m.team1.stats ∧
      (∀ es2 : List StatEntry,
        lookupTeamStats d m.team2.info.id = some es2 →
        (m.get_stats d).err = none)) ∧
    (∀ (es1 : List StatEntry) (e2 : TeamStatsEntry),
      lookupTeamStats d m.team1.info.id = some es1 →
      mp.lookup (toString m.team2.info.id) = some e2 → e2.M = some [] →
      m.get_stats d = ⟨none,
        { m with team1 := ⟨m.team1.info, applyStats m.team1.stats es1⟩ }⟩) := by
  refine ⟨?_, ?_, ?_⟩
  · intro h
    rcases h1 : lookupTeamStats d m.team1.info.id with _ | es1
    · rw [gs_none1 m d h1]
    · rcases h2 : lookupTeamStats d m.team2.info.id with _ | es2
      · rw [gs_none2 m d es1 h1 h2]
      · exfalso
        rcases h with h | h
        · simp [lookupTeamStats, hd, h] at h1
        · simp [lookupTeamStats, hd, h] at h2
  · intro e1 g1 gm1
    have h1 : lookupTeamStats d m.team1.info.id = some [] := by
      simp [lookupTeamStats, hd, g1, gm1]
    rcases h2 : lookupTeamStats d m.team2.info.id with _ | es2
    · rw [gs_none2 m d [] h1 h2]
      refine ⟨rfl, ?_⟩
      intro es2 hes2
      exact Option.noConfusion hes2
    · rw [gs_ok m d [] es2 h1 h2]
      exact ⟨rfl, fun _ _ => rfl⟩
  · intro es1 e2 h1 g2 gm2
    have h2 : lookupTeamStats d m.team2.info.id = some [] := by
      simp [lookupTeamStats, hd, g2, gm2]
    rw [gs_ok m d es1 [] h1 h2]
    rfl

/-- Witness for C3, with every hypothesis true at the input: on docEx,
team "1" maps to a non-empty list and team "2" to an empty one, so
extraction succeeds with team1 updated and team2 untouched; and on a
document whose mapping lacks team "2", the error field is
missingTeamStats. -/
theorem claim_C3_w :
    mEx.get_stats docEx = ⟨none,
      { mEx with team1 := ⟨mEx.team1.info,
          applyStats mEx.team1.stats [⟨"total_scoring_att", 10⟩]⟩ }⟩ ∧
    (mEx.get_stats docOnlyTeam1).err = some StatsErr.missingTeamStats :=
  ⟨(claim_C3 mEx docEx mpEx rfl).2.2 [⟨"total_scoring_att", 10⟩] ⟨some []⟩
      rfl rfl rfl,
   (claim_C3 mEx docOnlyTeam1 [("1", ⟨some [⟨"total_yel_card", 3⟩]⟩)] rfl).1
      (Or.inr rfl)⟩

/-- C9: the extraction step is not atomic and runs team1 first: a missing
team1 id fails with nothing modified, a missing team2 id fails after
team1's statistics were already rewritten from its entry list. -/
theorem claim_C9 (m : MatchStatistic) (d : MatchDoc) :
    (lookupTeamStats d m.team1.info.id = none →
      m.get_stats d = ⟨some StatsErr.missingTeamStats, m⟩) ∧
    (∀ es1 : List StatEntry,
      lookupTeamStats d m.team1.info.id = some es1 →
      lookupTeamStats d m.team2.info.id = none →
      m.get_stats d = ⟨some StatsErr.missingTeamStats,
        { m with team1 := ⟨m.team1.info, applyStats m.team1.stats es1⟩ }⟩) :=
  ⟨fun h => gs_none1 m d h, fun es1 h1 h2 => gs_none2 m d es1 h1 h2⟩

/-- Witness for C9: a document holding only team "1" makes get_stats fail
with team1's yellow cards already updated. -/
theorem claim_C9_w :
    mEx.get_stats docOnlyTeam1 = ⟨some StatsErr.missingTeamStats,
      { mEx with team1 := ⟨mEx.team1.info,
          applyStats mEx.team1.stats [⟨"total_yel_card", 3⟩]⟩ }⟩ :=
  (claim_C9 mEx docOnlyTeam1).2 [⟨"total_yel_card", 3⟩] rfl rfl

/-- C10: when the extraction step succeeds it only touches the teams'
statistic counters: the match context, both team identities and both
full-time goals are unchanged. -/
theorem claim_C10 (m : MatchStatistic) (d : MatchDoc) (r : MatchStatistic)
    (h : m.get_stats d = ⟨none, r⟩) :
    r.matchInfo = m.matchInfo ∧ r.team1.info = m.team1.info ∧
    r.team2.info = m.team2.info ∧
    r.team1.stats.ftg = m.team1.stats.ftg ∧
    r.team2.stats.ftg = m.team2.stats.ftg := by
  rcases h1 : lookupTeamStats d m.team1.info.id with _ | es1
  · rw [gs_none1 m d h1] at h
    simp [GetStatsOut.mk.injEq] at h
  · rcases h2 : lookupTeamStats d m.team2.info.id with _ | es2
    · rw [gs_none2 m d es1 h1 h2] at h
      simp [GetStatsOut.mk.injEq] at h
    · rw [gs_ok m d es1 es2 h1 h2] at h
      rw [GetStatsOut.mk.injEq] at h
      obtain ⟨-, hr⟩ := h
      subst hr
      exact ⟨rfl, rfl, rfl, applyStats_ftg es1 m.team1.stats,
        applyStats_ftg es2 m.team2.stats⟩

/-- Witness for C10 at the example document. -/
theorem claim_C10_w :
    mExAfter.matchInfo = mEx.matchInfo ∧
    mExAfter.team1.info = mEx.team1.info ∧
    mExAfter.team2.info = mEx.team2.info ∧
    mExAfter.team1.stats.ftg = mEx.team1.stats.ftg ∧
    mExAfter.team2.stats.ftg = mEx.team2.stats.ftg :=
  claim_C10 mEx docEx mExAfter gs_docEx

/-- C5: each team's full-time goals come from its score in the fixture
document, and no run of the extraction step (on any statistics document,
succeeding or not) ever changes either team's full-time goals. -/
theorem claim_C5 :
    (∀ (d : MatchDoc) (m : MatchStatistic) (ent : EntityDoc)
       (ts : List TeamSideDoc) (t1d t2d : TeamSideDoc) (s1 s2 : Int),
      d.entity = some ent → ent.teams = some ts →
      ts[0]? = some t1d → ts[1]? = some t2d →
      t1d.score = some s1 → t2d.score = some s2 →
      MatchStatistic.build d = Except.ok m →
      m.team1.stats.ftg = s1 ∧ m.team2.stats.ftg = s2) ∧
    (∀ (m : MatchStatistic) (d : MatchDoc),
      (m.get_stats d).state.team1.stats.ftg = m.team1.stats.ftg ∧
      (m.get_stats d).state.team2.stats.ftg = m.team2.stats.ftg) := by
  constructor
  · intro d m ent ts t1d t2d s1 s2 hent hts h0 h1 hsc1 hsc2 hb
    obtain ⟨ent', mi, ts', t1d', t2d', t1i, t2i, s1', s2', hent', hmi, hts',
      h0', hi1, h1', hi2, hsc1', hsc2', rfl⟩ := build_ok_elim d m hb
    rw [hent] at hent'; injection hent' with he; subst he
    rw [hts] at hts'; injection hts' with he; subst he
    rw [h0] at h0'; injection h0' with he; subst he
    rw [h1] at h1'; injection h1' with he; subst he
    rw [hsc1] at hsc1'; injection hsc1' with he; subst he
    rw [hsc2] at hsc2'; injection hsc2' with he; subst he
    exact ⟨rfl, rfl⟩
  · intro m d
    rcases h1 : lookupTeamStats d m.team1.info.id with _ | es1
    · rw [gs_none1 m d h1]
      exact ⟨rfl, rfl⟩
    · rcases h2 : lookupTeamStats d m.team2.info.id with _ | es2
      · rw [gs_none2 m d es1 h1 h2]
        exact ⟨applyStats_ftg es1 m.team1.stats, rfl⟩
      · rw [gs_ok m d es1 es2 h1 h2]
        exact ⟨applyStats_ftg es1 m.team1.stats, applyStats_ftg es2 m.team2.stats⟩

/-- Witness for C5 at the example: the built record carries the scores 2
and 1 as full-time goals. -/
theorem claim_C5_w : mEx.team1.stats.ftg = 2 ∧ mEx.team2.stats.ftg = 1 :=
  claim_C5.1 docEx mEx entityEx
    [⟨some ⟨some 1, some "Arsenal", some "ARS"⟩, some 2⟩,
     ⟨some ⟨some 2, some "Chelsea", some "CHE"⟩, some 1⟩]
    ⟨some ⟨some 1, some "Arsenal", some "ARS"⟩, some 2⟩
    ⟨some ⟨some 2, some "Chelsea", some "CHE"⟩, some 1⟩ 2 1
    rfl rfl rfl rfl rfl rfl build_docEx

/-- C8: a successful build yields exactly the two team records, each with
full-time goals from its score and every other statistic field 0. -/
theorem claim_C8 (d : MatchDoc) (m : MatchStatistic) (ent : EntityDoc)
    (ts : List TeamSideDoc) (t1d t2d : TeamSideDoc) (s1 s2 : Int)
    (hent : d.entity = some ent) (hts : ent.teams = some ts)
    (h0 : ts[0]? = some t1d) (h1 : ts[1]? = some t2d)
    (hsc1 : t1d.score = some s1) (hsc2 : t2d.score = some s2)
    (hb : MatchStatistic.build d = Except.ok m) :
    m.team1.stats = ⟨s1, 0, 0, 0, 0, 0, 0, 0⟩ ∧
    m.team2.stats = ⟨s2, 0, 0, 0, 0, 0, 0, 0⟩ := by
  obtain ⟨ent', mi, ts', t1d', t2d', t1i, t2i, s1', s2', hent', hmi, hts',
    h0', hi1, h1', hi2, hsc1', hsc2', rfl⟩ := build_ok_elim d m hb
  rw [hent] at hent'; injection hent' with he; subst he
  rw [hts] at hts'; injection hts' with he; subst he
  rw [h0] at h0'; injection h0' with he; subst he
  rw [h1] at h1'; injection h1' with he; subst he
  rw [hsc1] at hsc1'; injection hsc1' with he; subst he
  rw [hsc2] at hsc2'; injection hsc2' with he; subst he
  exact ⟨rfl, rfl⟩

/-- Witness for C8 at the example document. -/
theorem claim_C8_w :
    mEx.team1.stats = ⟨2, 0, 0, 0, 0, 0, 0, 0⟩ ∧
    mEx.team2.stats = ⟨1, 0, 0, 0, 0, 0, 0, 0⟩ :=
  claim_C8 docEx mEx entityEx
    [⟨some ⟨some 1, some "Arsenal", some "ARS"⟩, some 2⟩,
     ⟨some ⟨some 2, some "Chelsea", some "CHE"⟩, some 1⟩]
    ⟨some ⟨some 1, some "Arsenal", some "ARS"⟩, some 2⟩
    ⟨some ⟨some 2, some "Chelsea", some "CHE"⟩, some 1⟩ 2 1
    rfl rfl rfl rfl rfl rfl build_docEx

/-! ### Build trichotomy: success, FormatError, MissingFieldError -/

@[simp]
theorem isOk_ok {α : Type} (a : α) : (Except.ok a : Except BuildErr α).isOk = true := rfl

@[simp]
theorem isOk_error {α : Type} (e : BuildErr) :
    (Except.error e : Except BuildErr α).isOk = false := rfl

theorem mi_cases (ent : EntityDoc) :
    ((MatchInfo.build ent).isOk = true ∧
     (preKickOk ent && kickOk ent && groundOk ent) = true ∧ miFmt ent = false) ∨
    (MatchInfo.build ent = Except.error BuildErr.formatErr ∧
     (preKickOk ent && kickOk ent && groundOk ent) = false ∧ miFmt ent = true) ∨
    (MatchInfo.build ent = Except.error BuildErr.missingField ∧
     (preKickOk ent && kickOk ent && groundOk ent) = false ∧ miFmt ent = false) := by
  obtain ⟨gw, eid, ko, gr, att, ts⟩ := ent
  rcases gw with _ | ⟨gwid, cs, rnd⟩
  · simp [MatchInfo.build, preKickOk, kickOk, kickLabel, groundOk, miFmt]
  rcases gwid with _ | gwid
  · simp [MatchInfo.build, preKickOk, kickOk, kickLabel, groundOk, miFmt]
  rcases eid with _ | eid
  · simp [MatchInfo.build, preKickOk, kickOk, kickLabel, groundOk, miFmt]
  rcases cs with _ | ⟨lab, comp⟩
  · simp [MatchInfo.build, preKickOk, kickOk, kickLabel, groundOk, miFmt]
  rcases lab with _ | lab
  · simp [MatchInfo.build, preKickOk, kickOk, kickLabel, groundOk, miFmt]
  rcases rnd with _ | rnd
  · simp [MatchInfo.build, preKickOk, kickOk, kickLabel, groundOk, miFmt]
  rcases comp with _ | ⟨desc⟩
  · simp [MatchInfo.build, preKickOk, kickOk, kickLabel, groundOk, miFmt]
  rcases desc with _ | desc
  · simp [MatchInfo.build, preKickOk, kickOk, kickLabel, groundOk, miFmt]
  rcases ko with _ | ⟨lbl⟩
  · simp [MatchInfo.build, preKickOk, kickOk, kickLabel, groundOk, miFmt]
  rcases lbl with _ | lbl
  · simp [MatchInfo.build, preKickOk, kickOk, kickLabel, groundOk, miFmt]
  rcases hk : kickoffOf lbl with _ | ks
  · simp [MatchInfo.build, preKickOk, kickOk, kickLabel, groundOk, miFmt, hk]
  rcases gr with _ | ⟨gn, gc⟩
  · simp [MatchInfo.build, preKickOk, kickOk, kickLabel, groundOk, miFmt, hk]
  rcases gn with _ | gn
  · simp [MatchInfo.build, preKickOk, kickOk, kickLabel, groundOk, miFmt, hk,
      Ground.build, groundKeysOk]
  rcases gc with _ | gc
  · simp [MatchInfo.build, preKickOk, kickOk, kickLabel, groundOk, miFmt, hk,
      Ground.build, groundKeysOk]
  · simp [MatchInfo.build, preKickOk, kickOk, kickLabel, groundOk, miFmt, hk,
      Ground.build, groundKeysOk, pure, Except.pure]

theorem tstat_cases (td : TeamSideDoc) :
    (∃ i, TeamStat.build td = Except.ok ⟨i, Statistic.init⟩ ∧ sideOk td = true) ∨
    (TeamStat.build td = Except.error BuildErr.missingField ∧ sideOk td = false) := by
  rcases td with ⟨tm, sc⟩
  rcases tm with _ | ⟨ti, tn, tsn⟩
  · simp [TeamStat.build, TeamInfo.build, sideOk]
  rcases ti with _ | ti
  · simp [TeamStat.build, TeamInfo.build, sideOk]
  rcases tn with _ | tn
  · simp [TeamStat.build, TeamInfo.build, sideOk]
  rcases tsn with _ | tsn
  · simp [TeamStat.build, TeamInfo.build, sideOk]
  · exact Or.inl ⟨⟨ti, tn, tsn⟩, rfl, rfl⟩

theorem isOk_true_iff {α : Type} (e : Except BuildErr α) :
    e.isOk = true ↔ ∃ a, e = Except.ok a := by
  cases e <;> simp

theorem build_cases (d : MatchDoc) :
    ((MatchStatistic.build d).isOk = true ∧ buildOk d = true ∧ formatFail d = false) ∨
    (MatchStatistic.build d = Except.error BuildErr.formatErr ∧
       buildOk d = false ∧ formatFail d = true) ∨
    (MatchStatistic.build d = Except.error BuildErr.missingField ∧
       buildOk d = false ∧ formatFail d = false) := by
  rcases d with ⟨ent, dat⟩
  rcases ent with _ | ent
  · simp [MatchStatistic.build, buildOk, formatFail]
  rcases mi_cases ent with ⟨h1, h2, h3⟩ | ⟨h1, h2, h3⟩ | ⟨h1, h2, h3⟩
  · obtain ⟨mi, hmi⟩ := (isOk_true_iff _).mp h1
    rcases hts : ent.teams with _ | ts
    · right; right
      refine ⟨by simp [MatchStatistic.build, hmi, hts], ?_, ?_⟩
      · simp [buildOk, entityOk, hts]
      · simp [formatFail, h3]
    rcases h0 : ts[0]? with _ | t1d
    · right; right
      refine ⟨by simp [MatchStatistic.build, hmi, hts, getIdx, h0], ?_, ?_⟩
      · simp [buildOk, entityOk, hts, h0]
      · simp [formatFail, h3]
    rcases tstat_cases t1d with ⟨i1, ht1, hs1⟩ | ⟨ht1, hs1⟩
    · rcases h1' : ts[1]? with _ | t2d
      · right; right
        refine ⟨by simp [MatchStatistic.build, hmi, hts, getIdx, h0, h1', ht1], ?_, ?_⟩
        · simp [buildOk, entityOk, hts, h0, h1']
        · simp [formatFail, h3]
      rcases tstat_cases t2d with ⟨i2, ht2, hs2⟩ | ⟨ht2, hs2⟩
      · rcases hc1 : t1d.score with _ | s1
        · right; right
          refine ⟨by simp [MatchStatistic.build, hmi, hts, getIdx, h0, h1', ht1, ht2, hc1], ?_, ?_⟩
          · simp [buildOk, entityOk, hts, h0, h1', hc1]
          · simp [formatFail, h3]
        rcases hc2 : t2d.score with _ | s2
        · right; right
          refine ⟨by simp [MatchStatistic.build, hmi, hts, getIdx, h0, h1', ht1, ht2, hc1, hc2], ?_, ?_⟩
          · simp [buildOk, entityOk, hts, h0, h1', hc2]
          · simp [formatFail, h3]
        · left
          refine ⟨by simp [MatchStatistic.build, hmi, hts, getIdx, h0, h1', ht1, ht2, hc1, hc2, pure, Except.pure], ?_, ?_⟩
          · simp [buildOk, entityOk, hts, h0, h1', hc1, hc2, h2, hs1, hs2]
          · simp [formatFail, h3]
      · right; right
        refine ⟨by simp [MatchStatistic.build, hmi, hts, getIdx, h0, h1', ht1, ht2], ?_, ?_⟩
        · simp [buildOk, entityOk, hts, h0, h1', hs2]
        · simp [formatFail, h3]
    · right; right
      refine ⟨by simp [MatchStatistic.build, hmi, hts, getIdx, h0, ht1], ?_, ?_⟩
      · rcases h1' : ts[1]? with _ | t2d <;>
          simp [buildOk, entityOk, hts, h0, h1', hs1]
      · simp [formatFail, h3]
  · right; left
    refine ⟨by simp [MatchStatistic.build, h1], ?_, ?_⟩
    · simp [buildOk, entityOk, h2]
    · simp [formatFail, h3]
  · right; right
    refine ⟨by simp [MatchStatistic.build, h1], ?_, ?_⟩
    · simp [buildOk, entityOk, h2]
    · simp [formatFail, h3]


/-- C2 (amended): the builder succeeds exactly when every required key is
present, the team list has at least two entries and the kickoff label
parses; it fails with FormatError exactly when everything accessed before
the kickoff parse is present and the label does not parse; in every other
failing case the error is MissingFieldError.  (A team list with more than
two entries is not an error: entries beyond the first two are ignored.) -/
theorem claim_C2 (d : MatchDoc) :
    ((MatchStatistic.build d).isOk = true ↔ buildOk d = true) ∧
    (MatchStatistic.build d = Except.error BuildErr.formatErr ↔
      formatFail d = true) ∧
    (MatchStatistic.build d = Except.error BuildErr.missingField ↔
      buildOk d = false ∧ formatFail d = false) := by
  rcases build_cases d with ⟨h1, h2, h3⟩ | ⟨h1, h2, h3⟩ | ⟨h1, h2, h3⟩
  · obtain ⟨m, hm⟩ := (isOk_true_iff _).mp h1
    rw [hm]
    refine ⟨?_, ?_, ?_⟩ <;> simp [h2, h3]
  · rw [h1]
    refine ⟨?_, ?_, ?_⟩ <;> simp [h2, h3]
  · rw [h1]
    refine ⟨?_, ?_, ?_⟩ <;> simp [h2, h3]

/-- Counterexample to C2 as stated: a document whose team list has three
entries is accepted by the builder, so "fails whenever the team list does
not contain exactly two entries" is false; only lists with fewer than two
entries fail. -/
theorem claim_C2_cx :
    (∃ ent ts, docThree.entity = some ent ∧ ent.teams = some ts ∧
      ts.length = 3) ∧
    (MatchStatistic.build docThree).isOk = true := by
  exact ⟨⟨_, _, rfl, rfl, rfl⟩, rfl⟩

/-! ### Parser stage lemmas for the kickoff label -/

@[simp]
theorem obind_some {α β : Type} (a : α) (f : α → Option β) :
    (some a >>= f) = f a := rfl

@[simp]
theorem obind_none {α β : Type} (f : α → Option β) :
    ((none : Option α) >>= f) = none := rfl

theorem expectChar_cons (c : Char) (xs : List Char) :
    expectChar c (c :: xs) = some xs := by
  simp [expectChar]

theorem takeDigits_append (ds : List Char) (k : Nat) (hk : ds.length ≤ k)
    (hd : ∀ c ∈ ds, c.isDigit = true) (c : Char) (hc : c.isDigit = false)
    (rest : List Char) :
    takeDigits k (ds ++ c :: rest) = (ds, c :: rest) := by
  induction ds generalizing k with
  | nil =>
    cases k with
    | zero => simp [takeDigits]
    | succ k => simp [takeDigits, hc]
  | cons a as ih =>
    obtain ⟨k, rfl⟩ : ∃ j, k = j + 1 := ⟨k - 1, by simp at hk; omega⟩
    have ha : a.isDigit = true := hd a (List.mem_cons_self a as)
    have has : ∀ c ∈ as, c.isDigit = true := fun c hcm => hd c (List.mem_cons_of_mem a hcm)
    have hlen : as.length ≤ k := by simp at hk; omega
    simp [takeDigits, ha, ih k hlen has]

theorem takeDigits_all (ds : List Char) (k : Nat) (hk : ds.length ≤ k)
    (hd : ∀ c ∈ ds, c.isDigit = true) :
    takeDigits k ds = (ds, []) := by
  induction ds generalizing k with
  | nil => cases k <;> simp [takeDigits]
  | cons a as ih =>
    obtain ⟨k, rfl⟩ : ∃ j, k = j + 1 := ⟨k - 1, by simp at hk; omega⟩
    have ha : a.isDigit = true := hd a (List.mem_cons_self a as)
    have has : ∀ c ∈ as, c.isDigit = true := fun c hcm => hd c (List.mem_cons_of_mem a hcm)
    have hlen : as.length ≤ k := by simp at hk; omega
    simp [takeDigits, ha, ih k hlen has]

theorem parseNumUpTo_append (ds : List Char) (k : Nat) (h1 : 1 ≤ ds.length)
    (hk : ds.length ≤ k) (hd : ∀ c ∈ ds, c.isDigit = true) (c : Char)
    (hc : c.isDigit = false) (rest : List Char) :
    parseNumUpTo k (ds ++ c :: rest) = some (digitsVal ds, c :: rest) := by
  have hne : ds.isEmpty = false := by
    cases ds with
    | nil => simp at h1
    | cons a as => rfl
  simp [parseNumUpTo, takeDigits_append ds k hk hd c hc rest, hne]

theorem parseNumUpTo_all (ds : List Char) (k : Nat) (h1 : 1 ≤ ds.length)
    (hk : ds.length ≤ k) (hd : ∀ c ∈ ds, c.isDigit = true) :
    parseNumUpTo k ds = some (digitsVal ds, []) := by
  have hne : ds.isEmpty = false := by
    cases ds with
    | nil => simp at h1
    | cons a as => rfl
  simp [parseNumUpTo, takeDigits_all ds k hk hd, hne]

theorem parseYear4_append (ys : List Char) (hy : ys.length = 4)
    (hd : ∀ c ∈ ys, c.isDigit = true) (c : Char) (hc : c.isDigit = false)
    (rest : List Char) :
    parseYear4 (ys ++ c :: rest) = some (digitsVal ys, c :: rest) := by
  simp [parseYear4, takeDigits_append ys 4 (by omega) hd c hc rest, hy]

theorem matchAlt_wday (i : Nat) (w : String) (h : wdayAbbrs[i]? = some w)
    (rest : List Char) :
    matchAlt wdayAbbrs (w.data ++ rest) = some (i, rest) := by
  have hi : i < 7 := by
    by_contra hge
    rw [List.getElem?_eq_none (by simp [wdayAbbrs]; omega)] at h
    exact Option.noConfusion h
  interval_cases i <;> simp [wdayAbbrs] at h <;> subst h <;> rfl

theorem matchAlt_mon (i : Nat) (w : String) (h : monAbbrs[i]? = some w)
    (rest : List Char) :
    matchAlt monAbbrs (w.data ++ rest) = some (i, rest) := by
  have hi : i < 12 := by
    by_contra hge
    rw [List.getElem?_eq_none (by simp [monAbbrs]; omega)] at h
    exact Option.noConfusion h
  interval_cases i <;> simp [monAbbrs] at h <;> subst h <;> rfl


theorem parseKick_concat (wi mIdx : Nat) (wd mon : String)
    (hw : ∀ r, matchAlt wdayAbbrs (wd.data ++ r) = some (wi, r))
    (hm : ∀ r, matchAlt monAbbrs (mon.data ++ r) = some (mIdx, r))
    (ds ys hs ms : List Char)
    (hds1 : 1 ≤ ds.length) (hds2 : ds.length ≤ 2)
    (hdsd : ∀ c ∈ ds, c.isDigit = true)
    (hys4 : ys.length = 4) (hysd : ∀ c ∈ ys, c.isDigit = true)
    (hhs1 : 1 ≤ hs.length) (hhs2 : hs.length ≤ 2)
    (hhsd : ∀ c ∈ hs, c.isDigit = true)
    (hms1 : 1 ≤ ms.length) (hms2 : ms.length ≤ 2)
    (hmsd : ∀ c ∈ ms, c.isDigit = true)
    (hd1 : 1 ≤ digitsVal ds)
    (hd2 : digitsVal ds ≤ daysInMonth (digitsVal ys) (mIdx + 1))
    (hy1 : 1 ≤ digitsVal ys) (hh : digitsVal hs ≤ 23) (hmn : digitsVal ms ≤ 59) :
    parseKickoffChars (wd.data ++ (' ' :: (ds ++ (' ' :: (mon.data ++ (' ' :: (ys ++
        (',' :: (' ' :: (hs ++ (':' :: ms)))))))))))
      = some ⟨digitsVal ds, mIdx + 1, digitsVal ys, digitsVal hs, digitsVal ms⟩ := by
  have e1 := parseNumUpTo_append ds 2 hds1 hds2 hdsd ' ' (by decide)
    (mon.data ++ (' ' :: (ys ++ (',' :: (' ' :: (hs ++ (':' :: ms)))))))
  have e2 := parseYear4_append ys hys4 hysd ',' (by decide)
    (' ' :: (hs ++ (':' :: ms)))
  have e3 := parseNumUpTo_append hs 2 hhs1 hhs2 hhsd ':' (by decide) ms
  have e4 := parseNumUpTo_all ms 2 hms1 hms2 hmsd
  simp only [parseKickoffChars, hw, obind_some, expectChar_cons, e1, hm, e2, e3, e4]
  rw [if_pos ⟨trivial, hd1, hd2, hy1, hh, hmn⟩]


theorem kickoffOf_split (front tl : String) (h4 : tl.data.length = 4) :
    kickoffOf (front ++ tl) = (parseKickoffChars front.data).map fmtDate := by
  unfold kickoffOf
  rw [String.data_append, List.length_append, h4, Nat.add_sub_cancel,
    List.take_left]

theorem data_space : (" " : String).data = [' '] := rfl
theorem data_commaspace : (", " : String).data = [',', ' '] := rfl
theorem data_colon : (":" : String).data = [':'] := rfl

/-- C4: every label "<weekday> <day> <month> <year>, <HH:MM>" plus four
trailing characters is parsed with the trailing four characters dropped
and re-emitted as "DD/MM/YYYY"; in particular
"Sat 14 Aug 2022, 15:00 BST" yields "14/08/2022". -/
theorem claim_C4 :
    (∀ (wi mIdx : Nat) (wd mon ds ys hs ms tl : String),
      wdayAbbrs[wi]? = some wd → monAbbrs[mIdx]? = some mon →
      digitStr ds 2 → ys.data.length = 4 → (∀ c ∈ ys.data, c.isDigit = true) →
      digitStr hs 2 → digitStr ms 2 → tl.data.length = 4 →
      1 ≤ digitsVal ds.data →
      digitsVal ds.data ≤ daysInMonth (digitsVal ys.data) (mIdx + 1) →
      1000 ≤ digitsVal ys.data →
      digitsVal hs.data ≤ 23 → digitsVal ms.data ≤ 59 →
      kickoffOf (wd ++ " " ++ ds ++ " " ++ mon ++ " " ++ ys ++ ", " ++ hs ++ ":" ++ ms ++ tl)
        = some (pad2 (digitsVal ds.data) ++ "/" ++ pad2 (mIdx + 1) ++ "/" ++
            toString (digitsVal ys.data))) ∧
    kickoffOf "Sat 14 Aug 2022, 15:00 BST" = some "14/08/2022" := by
  constructor
  · intro wi mIdx wd mon ds ys hs ms tl hwg hmg hds hys4 hysd hhs hms htl
      hd1 hd2 hy1k hh hmn
    obtain ⟨hds1, hds2, hdsd⟩ := hds
    obtain ⟨hhs1, hhs2, hhsd⟩ := hhs
    obtain ⟨hms1, hms2, hmsd⟩ := hms
    have hw := matchAlt_wday wi wd hwg
    have hm := matchAlt_mon mIdx mon hmg
    rw [kickoffOf_split _ tl htl]
    have hfd : (wd ++ " " ++ ds ++ " " ++ mon ++ " " ++ ys ++ ", " ++ hs ++ ":" ++ ms).data
        = wd.data ++ (' ' :: (ds.data ++ (' ' :: (mon.data ++ (' ' :: (ys.data ++
            (',' :: (' ' :: (hs.data ++ (':' :: ms.data)))))))))) := by
      simp [String.data_append, data_space, data_commaspace, data_colon]
    rw [hfd, parseKick_concat wi mIdx wd mon hw hm ds.data ys.data hs.data ms.data
      hds1 hds2 hdsd hys4 hysd hhs1 hhs2 hhsd hms1 hms2 hmsd hd1 hd2
      (by omega) hh hmn]
    rfl
  · rfl

/-- Witness for C4: the concrete label of the spec. -/
theorem claim_C4_w : kickoffOf "Sat 14 Aug 2022, 15:00 BST" = some "14/08/2022" :=
  claim_C4.2


end EPL
